import Mathlib

/-!
Verification of the xaptum XDAA handshake client (xaptum-client-python).

The development shallowly embeds the repository's Python source:

* `xaptum/xdaa/message.py` — the three wire messages, their
  `parse_header` / `parse_body` / `serialize` codecs and the
  `serialize_for_signature` helpers;
* `xaptum/xdaa/handshake.py` — the `ReceiveServerKeyExchange` and
  `compute_shared_secret` portions of the handshake state machine;
* `xaptum/xdaa/sync/io.py` — `recvexactly` and `SyncSocket.data_read`;
* `xaptum/xdaa/sync/crypto.py` — `ephemeral_compute_shared_secret`;
* `xaptum/xdaa/daa.py` — `Keys.from_csv`.

Byte-strings are `List Nat`; Python exceptions become an explicit error
type threaded through `Except`.
-/

/-- A byte-string (Python `bytes`).  Wire bytes are below 256; the codecs
never rely on that bound, so it is not baked into the type. -/
abbrev Bytes := List Nat

/-- The Python exceptions that the embedded code can raise.
`invalidMessage` is `xaptum.xdaa.exceptions.InvalidMessageError` with its
message text; `unsupportedVersion`, `incorrectGroup` and `invalidSignature`
are the engine's `UnsupportedVersionError`, `IncorrectGroupError` and
`InvalidSignatureError`; `structError` is Python's `struct.error`;
`nameError` is `NameError` (an undefined name evaluated at call time);
`typeError` is `TypeError` (wrong constructor arity); `unicodeEncodeError`
is `UnicodeEncodeError` from `codecs.encode(_, 'ascii')`; `socketError`
is `socket.error`. -/
inductive PyErr where
  | invalidMessage (msg : String)
  | unsupportedVersion
  | incorrectGroup
  | invalidSignature
  | structError
  | nameError (missing : String)
  | typeError
  | unicodeEncodeError
  | socketError (msg : String)
  deriving DecidableEq, Repr

/-- `isinstance(e, InvalidMessageError)`: in `exceptions.py`,
`UnsupportedVersionError` is declared as a subclass of
`InvalidMessageError`, so both test true. -/
def PyErr.isInvalidMessageError : PyErr → Bool
  | .invalidMessage _ => true
  | .unsupportedVersion => true
  | _ => false

/-- `isinstance(e, UnsupportedVersionError)`: only the engine's
`UnsupportedVersionError` itself tests true; a plain `InvalidMessageError`
does not, even though the converse subclass relation holds. -/
def PyErr.isUnsupportedVersionError : PyErr → Bool
  | .unsupportedVersion => true
  | _ => false

instance {ε α : Type} [DecidableEq ε] [DecidableEq α] : DecidableEq (Except ε α) := fun x y =>
  match x, y with
  | .ok a, .ok b =>
    if h : a = b then isTrue (by rw [h])
    else isFalse (by intro hc; cases hc; exact h rfl)
  | .error a, .error b =>
    if h : a = b then isTrue (by rw [h])
    else isFalse (by intro hc; cases hc; exact h rfl)
  | .ok _, .error _ => isFalse (fun hc => Except.noConfusion hc)
  | .error _, .ok _ => isFalse (fun hc => Except.noConfusion hc)

/-- `struct.pack('!B', n)`: one byte, or `struct.error` out of range. -/
def packB (n : Nat) : Except PyErr Bytes :=
  if n < 256 then .ok [n] else .error .structError

/-- `struct.pack('!H', n)`: two big-endian bytes, or `struct.error` when
the value does not fit an unsigned 16-bit integer. -/
def packH (n : Nat) : Except PyErr Bytes :=
  if n < 65536 then .ok [n / 256, n % 256] else .error .structError

/-- `struct.pack('!%ds' % len, s)`: the string truncated or padded with
null bytes to exactly `len` bytes (never an error). -/
def packS (len : Nat) (s : Bytes) : Bytes :=
  s.take len ++ List.replicate (len - s.length) 0

/-- `struct.unpack('!H', [hi, lo])`: the big-endian 16-bit value. -/
def u16 (hi lo : Nat) : Nat := 256 * hi + lo

theorem packS_length_self (s : Bytes) : packS s.length s = s := by
  simp [packS]

theorem u16_split (n : Nat) : u16 (n / 256) (n % 256) = n := by
  simpa [u16] using Nat.div_add_mod n 256

/-- `ClientHelloMessage`: version byte, two declared field lengths, and
the two variable-length fields (`message.py`, class attributes set by
`__init__` and by the parsers). -/
structure ClientHelloMessage where
  version : Nat
  client_group_id_len : Nat
  client_nonce_len : Nat
  client_group_id : Bytes
  client_nonce : Bytes
  deriving DecidableEq, Repr

namespace ClientHelloMessage

/-- `ClientHelloMessage.__init__`: version 0, lengths taken from the
supplied fields. -/
def make (client_group_id client_nonce : Bytes) : ClientHelloMessage :=
  { version := 0
    client_group_id_len := client_group_id.length
    client_nonce_len := client_nonce.length
    client_group_id := client_group_id
    client_nonce := client_nonce }

def header_len : Nat := 5

/-- `ClientHelloMessage.parse_header`: `struct.unpack('!BHH', header)`
(which demands exactly 5 bytes), then the version-zero check, then a
partial message carrying the declared lengths plus the body length still
to be read.  The fields of the partial message keep the constructor's
`b''` defaults. -/
def parse_header : Bytes → Except PyErr (ClientHelloMessage × Nat)
  | [version, g1, g2, n1, n2] =>
    if version ≠ 0 then
      .error (.invalidMessage ("Invalid ClientHello message version: " ++ toString version))
    else
      .ok ({ version := 0
             client_group_id_len := u16 g1 g2
             client_nonce_len := u16 n1 n2
             client_group_id := []
             client_nonce := [] },
           u16 g1 g2 + u16 n1 n2)
  | _ => .error (.invalidMessage "Invalid ClientHello message header")

/-- `ClientHelloMessage.parse_body`: `struct.unpack('!%ds%ds', data)`
fails with `struct.error` unless `len(data)` equals the declared total,
and otherwise slices the two fields into the instance. -/
def parse_body (m : ClientHelloMessage) (data : Bytes) : Except PyErr ClientHelloMessage :=
  if data.length = m.client_group_id_len + m.client_nonce_len then
    .ok { m with
          client_group_id := data.take m.client_group_id_len
          client_nonce := (data.drop m.client_group_id_len).take m.client_nonce_len }
  else
    .error (.invalidMessage "Invalid ClientHello message body received")

/-- `ClientHelloMessage.serialize`: `struct.pack('!BHH', ...)` for the
header followed by `struct.pack('!%ds%ds', ...)` for the body. -/
def serialize (m : ClientHelloMessage) : Except PyErr Bytes :=
  match packB m.version, packH m.client_group_id_len, packH m.client_nonce_len with
  | .ok vb, .ok gb, .ok nb =>
    .ok (vb ++ gb ++ nb ++ packS m.client_group_id_len m.client_group_id
            ++ packS m.client_nonce_len m.client_nonce)
  | .error e, _, _ => .error e
  | _, .error e, _ => .error e
  | _, _, .error e => .error e

/-- The split parse of one inbound message, as the engine and the tests
drive it: `parse_header` on the first `header_len` bytes, `parse_body`
on the remainder. -/
def decode (data : Bytes) : Except PyErr ClientHelloMessage :=
  match parse_header (data.take header_len) with
  | .error e => .error e
  | .ok (m, _) => m.parse_body (data.drop header_len)

/-- `serialize` then `decode`: the codec round trip of one message. -/
def roundtrip (client_group_id client_nonce : Bytes) : Except PyErr ClientHelloMessage :=
  match (make client_group_id client_nonce).serialize with
  | .error e => .error e
  | .ok data => decode data

end ClientHelloMessage

/-- `ServerKeyExchangeMessage`: version byte, four declared field
lengths, and the four variable-length fields. -/
structure ServerKeyExchangeMessage where
  version : Nat
  server_group_id_len : Nat
  server_nonce_len : Nat
  server_ecdhe_public_key_len : Nat
  signature_len : Nat
  server_group_id : Bytes
  server_nonce : Bytes
  server_ecdhe_public_key : Bytes
  signature : Bytes
  deriving DecidableEq, Repr

namespace ServerKeyExchangeMessage

/-- `ServerKeyExchangeMessage.__init__`. -/
def make (server_group_id server_nonce server_ecdhe_public_key signature : Bytes) :
    ServerKeyExchangeMessage :=
  { version := 0
    server_group_id_len := server_group_id.length
    server_nonce_len := server_nonce.length
    server_ecdhe_public_key_len := server_ecdhe_public_key.length
    signature_len := signature.length
    server_group_id := server_group_id
    server_nonce := server_nonce
    server_ecdhe_public_key := server_ecdhe_public_key
    signature := signature }

def header_len : Nat := 9

/-- `ServerKeyExchangeMessage.serialize_for_signature`:
`struct.pack('!%ds%ds' % (len(a), len(b)), a, b)`, the concatenation of
the ephemeral public key and the peer nonce. -/
def serialize_for_signature (server_ecdhe_public_key client_nonce : Bytes) : Bytes :=
  packS server_ecdhe_public_key.length server_ecdhe_public_key ++
    packS client_nonce.length client_nonce

/-- `ServerKeyExchangeMessage.parse_header`: `struct.unpack('!BHHHH', _)`
(exactly 9 bytes), version-zero check, then the partial message with the
declared lengths and the body length. -/
def parse_header : Bytes → Except PyErr (ServerKeyExchangeMessage × Nat)
  | [version, g1, g2, n1, n2, p1, p2, s1, s2] =>
    if version ≠ 0 then
      .error (.invalidMessage ("Invalid ServerKeyExchange message version: " ++ toString version))
    else
      .ok ({ version := 0
             server_group_id_len := u16 g1 g2
             server_nonce_len := u16 n1 n2
             server_ecdhe_public_key_len := u16 p1 p2
             signature_len := u16 s1 s2
             server_group_id := []
             server_nonce := []
             server_ecdhe_public_key := []
             signature := [] },
           u16 g1 g2 + u16 n1 n2 + u16 p1 p2 + u16 s1 s2)
  | _ => .error (.invalidMessage "Invalid ServerKeyExchange message header")

/-- `ServerKeyExchangeMessage.parse_body`. -/
def parse_body (m : ServerKeyExchangeMessage) (data : Bytes) :
    Except PyErr ServerKeyExchangeMessage :=
  if data.length = m.server_group_id_len + m.server_nonce_len +
      m.server_ecdhe_public_key_len + m.signature_len then
    .ok { m with
          server_group_id := data.take m.server_group_id_len
          server_nonce := (data.drop m.server_group_id_len).take m.server_nonce_len
          server_ecdhe_public_key :=
            ((data.drop m.server_group_id_len).drop m.server_nonce_len).take
              m.server_ecdhe_public_key_len
          signature :=
            (((data.drop m.server_group_id_len).drop m.server_nonce_len).drop
              m.server_ecdhe_public_key_len).take m.signature_len }
  else
    .error (.invalidMessage "Invalid ServerKeyExchange mesasge body received")

/-- `ServerKeyExchangeMessage.serialize`. -/
def serialize (m : ServerKeyExchangeMessage) : Except PyErr Bytes :=
  match packB m.version, packH m.server_group_id_len, packH m.server_nonce_len,
      packH m.server_ecdhe_public_key_len, packH m.signature_len with
  | .ok vb, .ok gb, .ok nb, .ok pb, .ok sb =>
    .ok (vb ++ gb ++ nb ++ pb ++ sb ++ packS m.server_group_id_len m.server_group_id
            ++ packS m.server_nonce_len m.server_nonce
            ++ packS m.server_ecdhe_public_key_len m.server_ecdhe_public_key
            ++ packS m.signature_len m.signature)
  | .error e, _, _, _, _ => .error e
  | _, .error e, _, _, _ => .error e
  | _, _, .error e, _, _ => .error e
  | _, _, _, .error e, _ => .error e
  | _, _, _, _, .error e => .error e

/-- Split parse of one inbound ServerKeyExchange. -/
def decode (data : Bytes) : Except PyErr ServerKeyExchangeMessage :=
  match parse_header (data.take header_len) with
  | .error e => .error e
  | .ok (m, _) => m.parse_body (data.drop header_len)

/-- `serialize` then `decode`. -/
def roundtrip (server_group_id server_nonce server_ecdhe_public_key signature : Bytes) :
    Except PyErr ServerKeyExchangeMessage :=
  match (make server_group_id server_nonce server_ecdhe_public_key signature).serialize with
  | .error e => .error e
  | .ok data => decode data

end ServerKeyExchangeMessage

/-- `ClientKeyExchangeMessage`. -/
structure ClientKeyExchangeMessage where
  version : Nat
  client_ecdhe_public_key_len : Nat
  signature_len : Nat
  client_ecdhe_public_key : Bytes
  signature : Bytes
  deriving DecidableEq, Repr

namespace ClientKeyExchangeMessage

/-- `ClientKeyExchangeMessage.__init__`. -/
def make (client_ecdhe_public_key signature : Bytes) : ClientKeyExchangeMessage :=
  { version := 0
    client_ecdhe_public_key_len := client_ecdhe_public_key.length
    signature_len := signature.length
    client_ecdhe_public_key := client_ecdhe_public_key
    signature := signature }

def header_len : Nat := 5

/-- `ClientKeyExchangeMessage.serialize_for_signature`: the method body
binds a local named `format` but then evaluates `struct.pack(sig_format,
...)` with the undefined name `sig_format`, so every call raises
`NameError` instead of returning the concatenation. -/
def serialize_for_signature (client_ecdhe_public_key server_nonce : Bytes) :
    Except PyErr Bytes :=
  let _ := packS client_ecdhe_public_key.length client_ecdhe_public_key ++
    packS server_nonce.length server_nonce
  .error (.nameError "sig_format")

/-- `ClientKeyExchangeMessage.parse_header`. -/
def parse_header : Bytes → Except PyErr (ClientKeyExchangeMessage × Nat)
  | [version, p1, p2, s1, s2] =>
    if version ≠ 0 then
      .error (.invalidMessage ("Invalid ClientKeyExchange message version: " ++ toString version))
    else
      .ok ({ version := 0
             client_ecdhe_public_key_len := u16 p1 p2
             signature_len := u16 s1 s2
             client_ecdhe_public_key := []
             signature := [] },
           u16 p1 p2 + u16 s1 s2)
  | _ => .error (.invalidMessage "Invalid ClientKeyExchange message header")

/-- `ClientKeyExchangeMessage.parse_body` (the debug `print` calls in the
source produce no value and are dropped). -/
def parse_body (m : ClientKeyExchangeMessage) (data : Bytes) :
    Except PyErr ClientKeyExchangeMessage :=
  if data.length = m.client_ecdhe_public_key_len + m.signature_len then
    .ok { m with
          client_ecdhe_public_key := data.take m.client_ecdhe_public_key_len
          signature := (data.drop m.client_ecdhe_public_key_len).take m.signature_len }
  else
    .error (.invalidMessage "Invalid ClientKeyExchange message body received")

/-- `ClientKeyExchangeMessage.serialize`. -/
def serialize (m : ClientKeyExchangeMessage) : Except PyErr Bytes :=
  match packB m.version, packH m.client_ecdhe_public_key_len, packH m.signature_len with
  | .ok vb, .ok pb, .ok sb =>
    .ok (vb ++ pb ++ sb ++ packS m.client_ecdhe_public_key_len m.client_ecdhe_public_key
            ++ packS m.signature_len m.signature)
  | .error e, _, _ => .error e
  | _, .error e, _ => .error e
  | _, _, .error e => .error e

/-- Split parse of one inbound ClientKeyExchange. -/
def decode (data : Bytes) : Except PyErr ClientKeyExchangeMessage :=
  match parse_header (data.take header_len) with
  | .error e => .error e
  | .ok (m, _) => m.parse_body (data.drop header_len)

/-- `serialize` then `decode`. -/
def roundtrip (client_ecdhe_public_key signature : Bytes) :
    Except PyErr ClientKeyExchangeMessage :=
  match (make client_ecdhe_public_key signature).serialize with
  | .error e => .error e
  | .ok data => decode data

end ClientKeyExchangeMessage

/-- The effect requests the modelled engine fragments emit
(`xaptum/xdaa/events.py`).  Crypto key handles are carried as opaque
byte-strings: the engine only threads them through. -/
inductive Request where
  | dataRead (size : Nat)
  | dataWrite (data : Bytes)
  | groupSHA256VerifySignature (public_key data signature : Bytes)
  | ephemeralDecodePublicKey (encoded_public_key : Bytes)
  | ephemeralComputeSharedSecret (private_key public_key : Bytes)
  deriving DecidableEq, Repr

def Request.isDataRead : Request → Bool
  | .dataRead _ => true
  | _ => false

/-- `XDAAContext` (`handshake.py`), restricted to the fields the
modelled states read or write.  `daa_group_id` is `daa_group.group_id`;
the fields the handshake has not reached yet are `none`. -/
structure XDAAContext where
  protocol_version : Nat
  daa_group_id : Bytes
  server_group_public_key : Bytes
  client_nonce : Bytes
  client_ephemeral_private_key : Bytes
  server_nonce : Option Bytes
  server_ephemeral_public_key : Option Bytes
  shared_secret : Option Bytes
  deriving DecidableEq, Repr

namespace ReceiveServerKeyExchange

/-- `ReceiveServerKeyExchange.validate_message`, entry step: version
check (against `context.protocol_version`), byte-equality group check,
then the `GroupSHA256VerifySignature` request over
`serialize_for_signature(message.server_ecdhe_public_key,
context.client_nonce)` against `message.signature`. -/
def validate_entry (ctx : XDAAContext) (msg : ServerKeyExchangeMessage) :
    Except PyErr Request :=
  if msg.version ≠ ctx.protocol_version then .error .unsupportedVersion
  else if msg.server_group_id ≠ ctx.daa_group_id then .error .incorrectGroup
  else .ok (.groupSHA256VerifySignature ctx.server_group_public_key
      (ServerKeyExchangeMessage.serialize_for_signature
        msg.server_ecdhe_public_key ctx.client_nonce)
      msg.signature)

/-- `ReceiveServerKeyExchange.validate_message`, step 1: a false
verification result raises `InvalidSignatureError`. -/
def on_verify_result (verified : Bool) : Except PyErr Unit :=
  if verified = false then .error .invalidSignature else .ok ()

/-- One full pass of the `ReceiveServerKeyExchange` child machine, its
strictly sequential steps linearised: entry emits `DataRead(header_len)`;
the header result is parsed and `DataRead(remaining)` emitted; the body
result is parsed; `validate_message` checks and emits the signature
verification; a true result moves to `process_message`, which stores the
server nonce, emits `EphemeralDecodePublicKey`, and stores its result.
`verified` and `decoded_public_key` are the backend's answers to the two
crypto requests.  Returns the emitted requests and the updated context,
or the first raised error. -/
def run (ctx : XDAAContext) (header body : Bytes) (verified : Bool)
    (decoded_public_key : Bytes) : Except PyErr (List Request × XDAAContext) :=
  match ServerKeyExchangeMessage.parse_header header with
  | .error e => .error e
  | .ok (m, remaining) =>
    match m.parse_body body with
    | .error e => .error e
    | .ok msg =>
      match validate_entry ctx msg with
      | .error e => .error e
      | .ok verify_request =>
        match on_verify_result verified with
        | .error e => .error e
        | .ok _ =>
          .ok ([.dataRead ServerKeyExchangeMessage.header_len,
                .dataRead remaining,
                verify_request,
                .ephemeralDecodePublicKey msg.server_ecdhe_public_key],
               { ctx with
                 server_nonce := some msg.server_nonce,
                 server_ephemeral_public_key := some decoded_public_key })

end ReceiveServerKeyExchange

/-- `SyncCrypto.ephemeral_compute_shared_secret` (`sync/crypto.py`):
`event.private_key.compute_shared(event.public_key)[::-1]` — the raw
X25519 output reversed.  The X25519 primitive itself lives in the
external `donna25519` library, so it is passed in as a function. -/
def SyncCrypto.ephemeral_compute_shared_secret
    (compute_shared : Bytes → Bytes → Bytes) (private_key public_key : Bytes) : Bytes :=
  (compute_shared private_key public_key).reverse

namespace XDAAHandshake

/-- `XDAAHandshake.shared_secret` property: reads
`context.shared_secret`; this is what `negotiate_secret` returns after
the driver loop finishes. -/
def shared_secret (ctx : XDAAContext) : Option Bytes := ctx.shared_secret

/-- The `compute_shared_secret` state driven by `SyncCrypto`: entry
emits `EphemeralComputeSharedSecret(context.client_ephemeral_private_key,
context.server_ephemeral_public_key)`; the backend answers with the
reversed X25519 output; the result event's secret is stored unchanged as
`context.shared_secret` and the machine terminates. -/
def run_compute_shared_secret (compute_shared : Bytes → Bytes → Bytes)
    (ctx : XDAAContext) : Request × XDAAContext :=
  let private_key := ctx.client_ephemeral_private_key
  let public_key := ctx.server_ephemeral_public_key.getD []
  let secret := SyncCrypto.ephemeral_compute_shared_secret compute_shared
    private_key public_key
  (.ephemeralComputeSharedSecret private_key public_key,
   { ctx with shared_secret := some secret })

end XDAAHandshake

namespace SyncSocket

/-- The recv schedule of a blocking socket: each entry is what one
`recv_into` call delivers (already at most the requested size after
truncation); an empty entry — or an exhausted schedule — is a peer that
has stopped sending, which `recv` reports as 0 bytes. -/
def recvLoop (size : Nat) : List Bytes → Bytes → Bytes
  | [], acc => if acc.length < size then [] else acc
  | c :: rest, acc =>
    if acc.length < size then
      let r := c.take (size - acc.length)
      if r.length = 0 then [] else recvLoop size rest (acc ++ r)
    else acc

/-- `recvexactly(sock, size)` (`sync/io.py`): keep receiving until
`size` bytes have arrived, returning `b''` as soon as a `recv` delivers
0 bytes. -/
def recvexactly (chunks : List Bytes) (size : Nat) : Bytes :=
  recvLoop size chunks []

/-- `SyncSocket.data_read`: `recvexactly`, then an empty result raises
`socket.error("Connection closed by peer")`. -/
def data_read (chunks : List Bytes) (size : Nat) : Except PyErr Bytes :=
  let data := recvexactly chunks size
  if data = [] then .error (.socketError "Connection closed by peer") else .ok data

end SyncSocket

/-- The two reads of `ReceiveServerKeyExchange.receive_message` wired to
the synchronous transport: read the 9-byte header from the first recv
schedule, parse it, then read the declared body length from the second
schedule. -/
def ReceiveServerKeyExchange.read_body_sync (chunks1 chunks2 : List Bytes) :
    Except PyErr Bytes :=
  match SyncSocket.data_read chunks1 ServerKeyExchangeMessage.header_len with
  | .error e => .error e
  | .ok header =>
    match ServerKeyExchangeMessage.parse_header header with
    | .error e => .error e
    | .ok (_, remaining) => SyncSocket.data_read chunks2 remaining

/-- `codecs.encode(s, 'ascii')` (`daa.py` constructor): the code points
of an ASCII string, or `UnicodeEncodeError`. -/
def encodeAscii (s : List Char) : Except PyErr Bytes :=
  if s.all (fun c => c.toNat < 128) then .ok (s.map Char.toNat)
  else .error .unicodeEncodeError

/-- The DAA key bundle (`daa.py`), fields already ASCII-encoded. -/
structure Keys where
  group_id : Bytes
  server_public_key : Bytes
  client_private_key : Bytes
  deriving DecidableEq, Repr

/-- Python `str.split(',')`: every comma is a separator. -/
def splitOnComma : List Char → List (List Char)
  | [] => [[]]
  | c :: rest =>
    match splitOnComma rest with
    | [] => [[]]
    | f :: fs => if c = ',' then [] :: f :: fs else (c :: f) :: fs

namespace Keys

/-- `Keys(*parts)`: the constructor takes exactly the three positional
arguments and ASCII-encodes each; any other arity raises `TypeError`. -/
def ofParts : List (List Char) → Except PyErr Keys
  | [group_id, server_public_key, client_private_key] =>
    match encodeAscii group_id, encodeAscii server_public_key,
        encodeAscii client_private_key with
    | .ok g, .ok s, .ok c =>
      .ok { group_id := g, server_public_key := s, client_private_key := c }
    | .error e, _, _ => .error e
    | _, .error e, _ => .error e
    | _, _, .error e => .error e
  | _ => .error .typeError

/-- `Keys.from_csv`: `Keys(*csv.split(','))`. -/
def from_csv (csv : String) : Except PyErr Keys :=
  ofParts (splitOnComma csv.toList)

end Keys

theorem take_five (x1 x2 x3 x4 x5 : Nat) (r : Bytes) :
    List.take 5 (x1 :: x2 :: x3 :: x4 :: x5 :: r) = [x1, x2, x3, x4, x5] := rfl

theorem drop_five (x1 x2 x3 x4 x5 : Nat) (r : Bytes) :
    List.drop 5 (x1 :: x2 :: x3 :: x4 :: x5 :: r) = r := rfl

theorem take_nine (x1 x2 x3 x4 x5 x6 x7 x8 x9 : Nat) (r : Bytes) :
    List.take 9 (x1 :: x2 :: x3 :: x4 :: x5 :: x6 :: x7 :: x8 :: x9 :: r)
      = [x1, x2, x3, x4, x5, x6, x7, x8, x9] := rfl

theorem drop_nine (x1 x2 x3 x4 x5 x6 x7 x8 x9 : Nat) (r : Bytes) :
    List.drop 9 (x1 :: x2 :: x3 :: x4 :: x5 :: x6 :: x7 :: x8 :: x9 :: r) = r := rfl

theorem serialize_for_signature_append (a b : Bytes) :
    ServerKeyExchangeMessage.serialize_for_signature a b = a ++ b := by
  simp [ServerKeyExchangeMessage.serialize_for_signature, packS_length_self]

theorem ch_serialize_make (a b : Bytes) (ha : a.length < 65536) (hb : b.length < 65536) :
    (ClientHelloMessage.make a b).serialize =
      .ok (0 :: a.length / 256 :: a.length % 256 ::
        b.length / 256 :: b.length % 256 :: (a ++ b)) := by
  simp [ClientHelloMessage.serialize, ClientHelloMessage.make, packB, packH,
    ha, hb, packS_length_self]

theorem ch_roundtrip_ok (a b : Bytes) (ha : a.length ≤ 65535) (hb : b.length ≤ 65535) :
    ClientHelloMessage.roundtrip a b = .ok (ClientHelloMessage.make a b) := by
  have ha' : a.length < 65536 := by omega
  have hb' : b.length < 65536 := by omega
  simp only [ClientHelloMessage.roundtrip, ch_serialize_make a b ha' hb',
    ClientHelloMessage.decode, ClientHelloMessage.header_len, take_five, drop_five,
    ClientHelloMessage.parse_header, u16_split]
  simp [ClientHelloMessage.parse_body, ClientHelloMessage.make, List.take_left,
    List.drop_left]

theorem ske_serialize_make (a b c d : Bytes) (ha : a.length < 65536)
    (hb : b.length < 65536) (hc : c.length < 65536) (hd : d.length < 65536) :
    (ServerKeyExchangeMessage.make a b c d).serialize =
      .ok (0 :: a.length / 256 :: a.length % 256 :: b.length / 256 :: b.length % 256 ::
        c.length / 256 :: c.length % 256 :: d.length / 256 :: d.length % 256 ::
        (a ++ (b ++ (c ++ d)))) := by
  simp [ServerKeyExchangeMessage.serialize, ServerKeyExchangeMessage.make, packB, packH,
    ha, hb, hc, hd, packS_length_self]

theorem ske_roundtrip_ok (a b c d : Bytes) (ha : a.length ≤ 65535)
    (hb : b.length ≤ 65535) (hc : c.length ≤ 65535) (hd : d.length ≤ 65535) :
    ServerKeyExchangeMessage.roundtrip a b c d
      = .ok (ServerKeyExchangeMessage.make a b c d) := by
  have ha' : a.length < 65536 := by omega
  have hb' : b.length < 65536 := by omega
  have hc' : c.length < 65536 := by omega
  have hd' : d.length < 65536 := by omega
  simp only [ServerKeyExchangeMessage.roundtrip, ske_serialize_make a b c d ha' hb' hc' hd',
    ServerKeyExchangeMessage.decode, ServerKeyExchangeMessage.header_len, take_nine,
    drop_nine, ServerKeyExchangeMessage.parse_header, u16_split]
  simp [ServerKeyExchangeMessage.parse_body, ServerKeyExchangeMessage.make,
    List.take_left, List.drop_left, List.drop_append, List.take_append]
  omega

theorem cke_serialize_make (a b : Bytes) (ha : a.length < 65536) (hb : b.length < 65536) :
    (ClientKeyExchangeMessage.make a b).serialize =
      .ok (0 :: a.length / 256 :: a.length % 256 ::
        b.length / 256 :: b.length % 256 :: (a ++ b)) := by
  simp [ClientKeyExchangeMessage.serialize, ClientKeyExchangeMessage.make, packB, packH,
    ha, hb, packS_length_self]

theorem cke_roundtrip_ok (a b : Bytes) (ha : a.length ≤ 65535) (hb : b.length ≤ 65535) :
    ClientKeyExchangeMessage.roundtrip a b = .ok (ClientKeyExchangeMessage.make a b) := by
  have ha' : a.length < 65536 := by omega
  have hb' : b.length < 65536 := by omega
  simp only [ClientKeyExchangeMessage.roundtrip, cke_serialize_make a b ha' hb',
    ClientKeyExchangeMessage.decode, ClientKeyExchangeMessage.header_len, take_five,
    drop_five, ClientKeyExchangeMessage.parse_header, u16_split]
  simp [ClientKeyExchangeMessage.parse_body, ClientKeyExchangeMessage.make,
    List.take_left, List.drop_left]

theorem ch_serialize_error (a b : Bytes) (h : 65535 < a.length ∨ 65535 < b.length) :
    (ClientHelloMessage.make a b).serialize = .error .structError := by
  by_cases ha : a.length < 65536 <;> by_cases hb : b.length < 65536 <;>
    simp [ClientHelloMessage.serialize, ClientHelloMessage.make, packB, packH,
      ha, hb] <;> omega

theorem ske_serialize_error (a b c d : Bytes)
    (h : 65535 < a.length ∨ 65535 < b.length ∨ 65535 < c.length ∨ 65535 < d.length) :
    (ServerKeyExchangeMessage.make a b c d).serialize = .error .structError := by
  by_cases ha : a.length < 65536 <;> by_cases hb : b.length < 65536 <;>
    by_cases hc : c.length < 65536 <;> by_cases hd : d.length < 65536 <;>
    simp [ServerKeyExchangeMessage.serialize, ServerKeyExchangeMessage.make, packB, packH,
      ha, hb, hc, hd] <;> omega

theorem cke_serialize_error (a b : Bytes) (h : 65535 < a.length ∨ 65535 < b.length) :
    (ClientKeyExchangeMessage.make a b).serialize = .error .structError := by
  by_cases ha : a.length < 65536 <;> by_cases hb : b.length < 65536 <;>
    simp [ClientKeyExchangeMessage.serialize, ClientKeyExchangeMessage.make, packB, packH,
      ha, hb] <;> omega

theorem ch_roundtrip_error (a b : Bytes) (h : 65535 < a.length ∨ 65535 < b.length) :
    ClientHelloMessage.roundtrip a b = .error .structError := by
  simp only [ClientHelloMessage.roundtrip, ch_serialize_error a b h]

/-- C1: the spec and the repository's own test
`test_serialize_for_signature_serializes_correctly` state that both
KeyExchange variants of `serialize_for_signature` return the
concatenation, `serialize_for_signature(b'abcdef', b'12345') ==
b'abcdef12345'`.  The server variant does; the client variant evaluates
the undefined name `sig_format` and raises `NameError` on every call,
including this one. -/
theorem serialize_for_signature_eval :
    ServerKeyExchangeMessage.serialize_for_signature
        [97, 98, 99, 100, 101, 102] [49, 50, 51, 52, 53]
      = [97, 98, 99, 100, 101, 102, 49, 50, 51, 52, 53]
    ∧ ClientKeyExchangeMessage.serialize_for_signature
        [97, 98, 99, 100, 101, 102] [49, 50, 51, 52, 53]
      = .error (.nameError "sig_format") :=
  ⟨by decide, rfl⟩

/-- C2 (counterexample): the round trip does not hold for all
byte-string field values — a 65536-byte `client_group_id` makes
`serialize` raise `struct.error`, so parsing the serialization cannot
return the original message. -/
theorem codec_roundtrip_fails_beyond_u16 :
    ClientHelloMessage.roundtrip (List.replicate 65536 0) [] = .error .structError
    ∧ ¬ (ClientHelloMessage.roundtrip (List.replicate 65536 0) []
          = .ok (ClientHelloMessage.make (List.replicate 65536 0) [])) := by
  have hrt : ClientHelloMessage.roundtrip (List.replicate 65536 0) [] = .error .structError :=
    ch_roundtrip_error _ _ (Or.inl (by rw [List.length_replicate]; omega))
  exact ⟨hrt, by rw [hrt]; exact fun hc => Except.noConfusion hc⟩

/-- C2 (amended): for each of the three message types and all field
values of at most 65535 bytes each, parsing the serialization
(`parse_header` on the first `header_len` bytes, `parse_body` on the
remainder) returns a message whose fields equal the originals and whose
version equals 0. -/
theorem codec_roundtrip_bounded :
    (∀ a b : Bytes, a.length ≤ 65535 → b.length ≤ 65535 →
      ClientHelloMessage.roundtrip a b = .ok (ClientHelloMessage.make a b)
      ∧ (ClientHelloMessage.make a b).version = 0)
    ∧ (∀ a b c d : Bytes, a.length ≤ 65535 → b.length ≤ 65535 →
        c.length ≤ 65535 → d.length ≤ 65535 →
      ServerKeyExchangeMessage.roundtrip a b c d
        = .ok (ServerKeyExchangeMessage.make a b c d)
      ∧ (ServerKeyExchangeMessage.make a b c d).version = 0)
    ∧ (∀ a b : Bytes, a.length ≤ 65535 → b.length ≤ 65535 →
      ClientKeyExchangeMessage.roundtrip a b = .ok (ClientKeyExchangeMessage.make a b)
      ∧ (ClientKeyExchangeMessage.make a b).version = 0) :=
  ⟨fun a b ha hb => ⟨ch_roundtrip_ok a b ha hb, rfl⟩,
   fun a b c d ha hb hc hd => ⟨ske_roundtrip_ok a b c d ha hb hc hd, rfl⟩,
   fun a b ha hb => ⟨cke_roundtrip_ok a b ha hb, rfl⟩⟩

/-- C2 (witness): the bounded round trip at concrete fields. -/
theorem codec_roundtrip_bounded_witness :
    ClientHelloMessage.roundtrip [1, 2] [3] = .ok (ClientHelloMessage.make [1, 2] [3])
    ∧ ServerKeyExchangeMessage.roundtrip [1] [2] [3] [4]
        = .ok (ServerKeyExchangeMessage.make [1] [2] [3] [4])
    ∧ ClientKeyExchangeMessage.roundtrip [5] [6]
        = .ok (ClientKeyExchangeMessage.make [5] [6]) :=
  ⟨(codec_roundtrip_bounded.1 [1, 2] [3] (by decide) (by decide)).1,
   (codec_roundtrip_bounded.2.1 [1] [2] [3] [4]
      (by decide) (by decide) (by decide) (by decide)).1,
   (codec_roundtrip_bounded.2.2 [5] [6] (by decide) (by decide)).1⟩

/-- C6: `ClientHelloMessage.parse_header` raises `InvalidMessage` on a
header shorter than the 5 fixed bytes and on a nonzero version byte;
`parse_body` raises `InvalidMessage` when the body length differs from
the sum of the declared field lengths; in particular the 4-byte header
`b'\x00\x00\x01\x01'` and the message `b'\x00\x00\x01\x00\x02ab'`
(declared body length 3, 2 body bytes) both fail. -/
theorem clientHello_invalid_inputs_raise_invalidMessage :
    (∀ header : Bytes, header.length < 5 →
      ClientHelloMessage.parse_header header
        = .error (.invalidMessage "Invalid ClientHello message header"))
    ∧ (∀ v g1 g2 n1 n2 : Nat, v ≠ 0 →
      ClientHelloMessage.parse_header [v, g1, g2, n1, n2]
        = .error (.invalidMessage
            ("Invalid ClientHello message version: " ++ toString v)))
    ∧ (∀ (m : ClientHelloMessage) (data : Bytes),
        data.length ≠ m.client_group_id_len + m.client_nonce_len →
      m.parse_body data
        = .error (.invalidMessage "Invalid ClientHello message body received"))
    ∧ ClientHelloMessage.parse_header [0, 0, 1, 1]
        = .error (.invalidMessage "Invalid ClientHello message header")
    ∧ ClientHelloMessage.decode [0, 0, 1, 0, 2, 97, 98]
        = .error (.invalidMessage "Invalid ClientHello message body received") := by
  refine ⟨?_, ?_, ?_, by decide, by decide⟩
  · intro header h
    rcases header with _ | ⟨v, _ | ⟨g1, _ | ⟨g2, _ | ⟨n1, _ | ⟨n2, rest⟩⟩⟩⟩⟩
    · rfl
    · rfl
    · rfl
    · rfl
    · rfl
    · cases rest with
      | nil => simp at h
      | cons x xs => rfl
  · intro v g1 g2 n1 n2 hv
    simp [ClientHelloMessage.parse_header, hv]
  · intro m data h
    simp [ClientHelloMessage.parse_body, h]

/-- C6 (witness): the general clauses at concrete inputs. -/
theorem clientHello_invalid_inputs_raise_invalidMessage_witness :
    ClientHelloMessage.parse_header [0, 0]
      = .error (.invalidMessage "Invalid ClientHello message header")
    ∧ ClientHelloMessage.parse_header [3, 0, 0, 0, 0]
      = .error (.invalidMessage ("Invalid ClientHello message version: " ++ toString 3))
    ∧ (ClientHelloMessage.make [] []).parse_body [5]
      = .error (.invalidMessage "Invalid ClientHello message body received") :=
  ⟨clientHello_invalid_inputs_raise_invalidMessage.1 [0, 0] (by decide),
   clientHello_invalid_inputs_raise_invalidMessage.2.1 3 0 0 0 0 (by decide),
   clientHello_invalid_inputs_raise_invalidMessage.2.2.1
     (ClientHelloMessage.make [] []) [5] (by decide)⟩

/-- C9: for each message type, `serialize` succeeds exactly when every
field fits an unsigned 16-bit length, and an overlong field raises
`struct.error` — which is not an `InvalidMessage` error. -/
theorem serialize_defined_iff_fields_fit_u16 :
    (∀ a b : Bytes,
      ((∃ out, (ClientHelloMessage.make a b).serialize = .ok out) ↔
        (a.length ≤ 65535 ∧ b.length ≤ 65535))
      ∧ (65535 < a.length ∨ 65535 < b.length →
        (ClientHelloMessage.make a b).serialize = .error .structError
        ∧ PyErr.isInvalidMessageError .structError = false))
    ∧ (∀ a b c d : Bytes,
      ((∃ out, (ServerKeyExchangeMessage.make a b c d).serialize = .ok out) ↔
        (a.length ≤ 65535 ∧ b.length ≤ 65535 ∧ c.length ≤ 65535 ∧ d.length ≤ 65535))
      ∧ (65535 < a.length ∨ 65535 < b.length ∨ 65535 < c.length ∨ 65535 < d.length →
        (ServerKeyExchangeMessage.make a b c d).serialize = .error .structError
        ∧ PyErr.isInvalidMessageError .structError = false))
    ∧ (∀ a b : Bytes,
      ((∃ out, (ClientKeyExchangeMessage.make a b).serialize = .ok out) ↔
        (a.length ≤ 65535 ∧ b.length ≤ 65535))
      ∧ (65535 < a.length ∨ 65535 < b.length →
        (ClientKeyExchangeMessage.make a b).serialize = .error .structError
        ∧ PyErr.isInvalidMessageError .structError = false)) := by
  refine ⟨fun a b => ⟨⟨?_, ?_⟩, fun h => ⟨ch_serialize_error a b h, rfl⟩⟩,
    fun a b c d => ⟨⟨?_, ?_⟩, fun h => ⟨ske_serialize_error a b c d h, rfl⟩⟩,
    fun a b => ⟨⟨?_, ?_⟩, fun h => ⟨cke_serialize_error a b h, rfl⟩⟩⟩
  · rintro ⟨out, hout⟩
    have hno : ¬ (65535 < a.length ∨ 65535 < b.length) := by
      intro h
      rw [ch_serialize_error a b h] at hout
      exact absurd hout (by simp)
    omega
  · rintro ⟨ha, hb⟩
    exact ⟨_, ch_serialize_make a b (by omega) (by omega)⟩
  · rintro ⟨out, hout⟩
    have hno : ¬ (65535 < a.length ∨ 65535 < b.length ∨
        65535 < c.length ∨ 65535 < d.length) := by
      intro h
      rw [ske_serialize_error a b c d h] at hout
      exact absurd hout (by simp)
    omega
  · rintro ⟨ha, hb, hc, hd⟩
    exact ⟨_, ske_serialize_make a b c d (by omega) (by omega) (by omega) (by omega)⟩
  · rintro ⟨out, hout⟩
    have hno : ¬ (65535 < a.length ∨ 65535 < b.length) := by
      intro h
      rw [cke_serialize_error a b h] at hout
      exact absurd hout (by simp)
    omega
  · rintro ⟨ha, hb⟩
    exact ⟨_, cke_serialize_make a b (by omega) (by omega)⟩

/-- C9 (witness): a 65536-byte field makes `serialize` fail with
`struct.error`, and in-range fields serialize successfully. -/
theorem serialize_defined_iff_fields_fit_u16_witness :
    ((ClientHelloMessage.make (List.replicate 65536 0) []).serialize
        = .error .structError
      ∧ PyErr.isInvalidMessageError .structError = false)
    ∧ (∃ out, (ClientHelloMessage.make [7] [8]).serialize = .ok out) :=
  ⟨(serialize_defined_iff_fields_fit_u16.1 (List.replicate 65536 0) []).2
      (Or.inl (by rw [List.length_replicate]; omega)),
   (serialize_defined_iff_fields_fit_u16.1 [7] [8]).1.mpr ⟨by decide, by decide⟩⟩

/-- A concrete handshake context, as it stands when
`ReceiveServerKeyExchange` begins: version 0, provisioned group id
`[103]`, decoded server group public key handle `[1]`, client nonce
`[7, 7]`, ephemeral private key handle `[2]`. -/
def exampleContext : XDAAContext :=
  { protocol_version := 0
    daa_group_id := [103]
    server_group_public_key := [1]
    client_nonce := [7, 7]
    client_ephemeral_private_key := [2]
    server_nonce := none
    server_ephemeral_public_key := none
    shared_secret := none }

theorem ske_parse_header_ok (header : Bytes) (m : ServerKeyExchangeMessage) (L : Nat)
    (h : ServerKeyExchangeMessage.parse_header header = .ok (m, L)) :
    L = m.server_group_id_len + m.server_nonce_len +
      m.server_ecdhe_public_key_len + m.signature_len := by
  obtain _ | ⟨v, header⟩ := header; · exact Except.noConfusion h
  obtain _ | ⟨g1, header⟩ := header; · exact Except.noConfusion h
  obtain _ | ⟨g2, header⟩ := header; · exact Except.noConfusion h
  obtain _ | ⟨n1, header⟩ := header; · exact Except.noConfusion h
  obtain _ | ⟨n2, header⟩ := header; · exact Except.noConfusion h
  obtain _ | ⟨p1, header⟩ := header; · exact Except.noConfusion h
  obtain _ | ⟨p2, header⟩ := header; · exact Except.noConfusion h
  obtain _ | ⟨s1, header⟩ := header; · exact Except.noConfusion h
  obtain _ | ⟨s2, header⟩ := header; · exact Except.noConfusion h
  obtain _ | ⟨x, header⟩ := header
  · by_cases hv : v = 0
    · simp only [ServerKeyExchangeMessage.parse_header] at h
      rw [if_neg (by simp [hv])] at h
      injection h with h1
      injection h1 with hm hL
      subst hm
      subst hL
      rfl
    · simp only [ServerKeyExchangeMessage.parse_header] at h
      rw [if_pos hv] at h
      exact Except.noConfusion h
  · exact Except.noConfusion h

theorem validate_entry_ok_shape (ctx : XDAAContext) (msg : ServerKeyExchangeMessage)
    (vreq : Request) (h : ReceiveServerKeyExchange.validate_entry ctx msg = .ok vreq) :
    vreq = .groupSHA256VerifySignature ctx.server_group_public_key
      (ServerKeyExchangeMessage.serialize_for_signature
        msg.server_ecdhe_public_key ctx.client_nonce)
      msg.signature := by
  unfold ReceiveServerKeyExchange.validate_entry at h
  split_ifs at h
  cases h
  rfl

/-- C8: whenever the `ReceiveServerKeyExchange` machine processes an
inbound message to completion, the `DataRead` requests it issued are
exactly `DataRead(9)` for the fixed header and then `DataRead(L)` with
`L` the sum of the four field lengths declared in the parsed header —
whatever the body, verification answer and decoded key are. -/
theorem ske_receive_two_reads :
    ∀ (ctx : XDAAContext) (header body : Bytes) (verified : Bool) (decoded : Bytes)
      (trace : List Request) (ctx2 : XDAAContext),
      ReceiveServerKeyExchange.run ctx header body verified decoded = .ok (trace, ctx2) →
      ∃ (m : ServerKeyExchangeMessage) (L : Nat),
        ServerKeyExchangeMessage.parse_header header = .ok (m, L)
        ∧ L = m.server_group_id_len + m.server_nonce_len +
            m.server_ecdhe_public_key_len + m.signature_len
        ∧ trace.filter Request.isDataRead = [.dataRead 9, .dataRead L] := by
  intro ctx header body verified decoded trace ctx2 h
  unfold ReceiveServerKeyExchange.run at h
  split at h
  · exact Except.noConfusion h
  rename_i m remaining hp
  split at h
  · exact Except.noConfusion h
  rename_i msg hb
  split at h
  · exact Except.noConfusion h
  rename_i vreq hv
  split at h
  · exact Except.noConfusion h
  injection h with h1
  injection h1 with htrace hctx
  subst htrace
  refine ⟨m, remaining, hp, ske_parse_header_ok header m remaining hp, ?_⟩
  rw [validate_entry_ok_shape ctx msg vreq hv]
  simp [Request.isDataRead, ServerKeyExchangeMessage.header_len]

/-- C8 (witness): a concrete complete receive — header declaring four
1-byte fields — issues exactly `DataRead(9)` then `DataRead(4)`. -/
theorem ske_receive_two_reads_witness :
    ∃ (m : ServerKeyExchangeMessage) (L : Nat),
      ServerKeyExchangeMessage.parse_header [0, 0, 1, 0, 1, 0, 1, 0, 1] = .ok (m, L)
      ∧ L = m.server_group_id_len + m.server_nonce_len +
          m.server_ecdhe_public_key_len + m.signature_len
      ∧ ([Request.dataRead 9, Request.dataRead 4,
          Request.groupSHA256VerifySignature [1] [8, 7, 7] [77],
          Request.ephemeralDecodePublicKey [8]].filter Request.isDataRead)
        = [Request.dataRead 9, Request.dataRead L] :=
  ske_receive_two_reads exampleContext [0, 0, 1, 0, 1, 0, 1, 0, 1] [103, 9, 8, 77]
    true [42]
    [Request.dataRead 9, Request.dataRead 4,
     Request.groupSHA256VerifySignature [1] [8, 7, 7] [77],
     Request.ephemeralDecodePublicKey [8]]
    { protocol_version := 0
      daa_group_id := [103]
      server_group_public_key := [1]
      client_nonce := [7, 7]
      client_ephemeral_private_key := [2]
      server_nonce := some [9]
      server_ephemeral_public_key := some [42]
      shared_secret := none }
    (by decide)

/-- C3: a ServerKeyExchange whose version byte is 1 makes the client
fail — but with the plain `InvalidMessageError` raised inside
`parse_header` ("Invalid ServerKeyExchange message version: 1"), which
is not an `UnsupportedVersionError`; the engine's
`UnsupportedVersionError` branch in `validate_message` never sees a
nonzero version because `parse_header` rejects it first. -/
theorem version_one_fails_invalidMessage_not_unsupportedVersion :
    ReceiveServerKeyExchange.run exampleContext [1, 0, 1, 0, 1, 0, 1, 0, 1]
        [103, 9, 8, 77] true [42]
      = .error (.invalidMessage "Invalid ServerKeyExchange message version: 1")
    ∧ PyErr.isUnsupportedVersionError
        (.invalidMessage "Invalid ServerKeyExchange message version: 1") = false
    ∧ PyErr.isInvalidMessageError
        (.invalidMessage "Invalid ServerKeyExchange message version: 1") = true :=
  ⟨by decide, rfl, rfl⟩

/-- C4: after the version and group checks pass, `validate_message`
emits `GroupSHA256VerifySignature` over
`serialize_for_signature(message.server_ecdhe_public_key, client_nonce)`
against `message.signature`; a false verification answer raises
`InvalidSignatureError`; and against any verifier that only accepts the
bytes the server actually signed — `(server_ephemeral_public,
random_nonce)` with a 32-byte `random_nonce ≠ client_nonce` — the check
comes back false, so the handshake fails with `InvalidSignature`. -/
theorem validate_message_signature_check :
    ∀ (ctx : XDAAContext) (msg : ServerKeyExchangeMessage),
      msg.version = ctx.protocol_version →
      msg.server_group_id = ctx.daa_group_id →
      (ReceiveServerKeyExchange.validate_entry ctx msg
        = .ok (.groupSHA256VerifySignature ctx.server_group_public_key
            (ServerKeyExchangeMessage.serialize_for_signature
              msg.server_ecdhe_public_key ctx.client_nonce)
            msg.signature))
      ∧ ReceiveServerKeyExchange.on_verify_result false = .error .invalidSignature
      ∧ (∀ (verify : Bytes → Bytes → Bool) (random_nonce : Bytes),
          (∀ data sig, verify data sig = true →
            data = msg.server_ecdhe_public_key ++ random_nonce) →
          random_nonce.length = 32 →
          random_nonce ≠ ctx.client_nonce →
          ReceiveServerKeyExchange.on_verify_result
            (verify (ServerKeyExchangeMessage.serialize_for_signature
                msg.server_ecdhe_public_key ctx.client_nonce) msg.signature)
            = .error .invalidSignature) := by
  intro ctx msg hv hg
  refine ⟨by simp [ReceiveServerKeyExchange.validate_entry, hv, hg], rfl, ?_⟩
  intro verify random_nonce hverify hlen hne
  have hfalse : verify (ServerKeyExchangeMessage.serialize_for_signature
      msg.server_ecdhe_public_key ctx.client_nonce) msg.signature = false := by
    cases hb : verify (ServerKeyExchangeMessage.serialize_for_signature
        msg.server_ecdhe_public_key ctx.client_nonce) msg.signature with
    | false => rfl
    | true =>
      have hdata := hverify _ _ hb
      rw [serialize_for_signature_append] at hdata
      exact absurd (List.append_cancel_left hdata).symm hne
  rw [hfalse]
  rfl

/-- C4 (witness): concrete context, message and a verifier that accepts
only the server-signed bytes `[8] ++ 32×9`, while the client nonce is
`[7, 7]`. -/
theorem validate_message_signature_check_witness :
    ReceiveServerKeyExchange.validate_entry exampleContext
        (ServerKeyExchangeMessage.make [103] [9] [8] [77])
      = .ok (.groupSHA256VerifySignature [1]
          (ServerKeyExchangeMessage.serialize_for_signature [8] [7, 7]) [77])
    ∧ ReceiveServerKeyExchange.on_verify_result
        ((fun data _ => decide (data = [8] ++ List.replicate 32 9))
          (ServerKeyExchangeMessage.serialize_for_signature [8] [7, 7]) [77])
      = .error .invalidSignature :=
  ⟨(validate_message_signature_check exampleContext
      (ServerKeyExchangeMessage.make [103] [9] [8] [77]) rfl rfl).1,
   (validate_message_signature_check exampleContext
      (ServerKeyExchangeMessage.make [103] [9] [8] [77]) rfl rfl).2.2
     (fun data _ => decide (data = [8] ++ List.replicate 32 9))
     (List.replicate 32 9)
     (fun _ _ h => of_decide_eq_true h)
     (by rw [List.length_replicate])
     (by decide)⟩

/-- C5: in the `compute_shared_secret` state driven by the synchronous
crypto backend, the X25519 output for
`(client_ephemeral_private_key, server_ephemeral_public_key)` is
byte-reversed before being stored as `context.shared_secret`, the value
the `shared_secret` property — and hence `negotiate_secret` — returns;
a 32-byte X25519 output yields a 32-byte secret. -/
theorem shared_secret_is_reversed_x25519 :
    ∀ (compute_shared : Bytes → Bytes → Bytes) (ctx : XDAAContext) (pub : Bytes),
      ctx.server_ephemeral_public_key = some pub →
      (XDAAHandshake.shared_secret
          (XDAAHandshake.run_compute_shared_secret compute_shared ctx).2
        = some ((compute_shared ctx.client_ephemeral_private_key pub).reverse))
      ∧ ((XDAAHandshake.run_compute_shared_secret compute_shared ctx).1
        = .ephemeralComputeSharedSecret ctx.client_ephemeral_private_key pub)
      ∧ ((compute_shared ctx.client_ephemeral_private_key pub).length = 32 →
         ∃ s, XDAAHandshake.shared_secret
             (XDAAHandshake.run_compute_shared_secret compute_shared ctx).2 = some s
           ∧ s.length = 32) := by
  intro compute_shared ctx pub hpub
  refine ⟨?_, ?_, ?_⟩
  · simp [XDAAHandshake.run_compute_shared_secret, XDAAHandshake.shared_secret,
      SyncCrypto.ephemeral_compute_shared_secret, hpub]
  · simp [XDAAHandshake.run_compute_shared_secret, hpub]
  · intro h32
    refine ⟨(compute_shared ctx.client_ephemeral_private_key pub).reverse, ?_, ?_⟩
    · simp [XDAAHandshake.run_compute_shared_secret, XDAAHandshake.shared_secret,
        SyncCrypto.ephemeral_compute_shared_secret, hpub]
    · simp [h32]

/-- C5 (witness): a backend whose X25519 primitive returns 32 sixes; the
stored secret is its byte-reversal and has 32 bytes. -/
theorem shared_secret_is_reversed_x25519_witness :
    XDAAHandshake.shared_secret
        (XDAAHandshake.run_compute_shared_secret (fun _ _ => List.replicate 32 6)
          { protocol_version := 0
            daa_group_id := [103]
            server_group_public_key := [1]
            client_nonce := [7, 7]
            client_ephemeral_private_key := [2]
            server_nonce := some [9]
            server_ephemeral_public_key := some [5]
            shared_secret := none }).2
      = some ((List.replicate 32 6).reverse)
    ∧ ∃ s, XDAAHandshake.shared_secret
          (XDAAHandshake.run_compute_shared_secret (fun _ _ => List.replicate 32 6)
            { protocol_version := 0
              daa_group_id := [103]
              server_group_public_key := [1]
              client_nonce := [7, 7]
              client_ephemeral_private_key := [2]
              server_nonce := some [9]
              server_ephemeral_public_key := some [5]
              shared_secret := none }).2 = some s
        ∧ s.length = 32 :=
  ⟨(shared_secret_is_reversed_x25519 (fun _ _ => List.replicate 32 6) _ [5] rfl).1,
   (shared_secret_is_reversed_x25519 (fun _ _ => List.replicate 32 6) _ [5] rfl).2.2
     (by rw [List.length_replicate])⟩

/-- C10: `recvexactly` returns the empty byte-string for a zero-byte
read no matter what the socket delivers, `data_read` turns that empty
result into the connection-closed `socket.error`, and therefore the body
read of a ServerKeyExchange whose declared field lengths sum to 0 always
fails under the synchronous transport. -/
theorem dataRead_zero_always_errors :
    (∀ chunks : List Bytes, SyncSocket.recvexactly chunks 0 = [])
    ∧ (∀ chunks : List Bytes, SyncSocket.data_read chunks 0
        = .error (.socketError "Connection closed by peer"))
    ∧ (∀ (chunks1 chunks2 : List Bytes) (header : Bytes) (m : ServerKeyExchangeMessage),
        SyncSocket.data_read chunks1 9 = .ok header →
        ServerKeyExchangeMessage.parse_header header = .ok (m, 0) →
        ReceiveServerKeyExchange.read_body_sync chunks1 chunks2
          = .error (.socketError "Connection closed by peer")) := by
  have h0 : ∀ chunks : List Bytes, SyncSocket.recvexactly chunks 0 = [] := by
    intro chunks
    cases chunks <;> simp [SyncSocket.recvexactly, SyncSocket.recvLoop]
  have h1 : ∀ chunks : List Bytes, SyncSocket.data_read chunks 0
      = .error (.socketError "Connection closed by peer") := by
    intro chunks
    simp [SyncSocket.data_read, h0]
  refine ⟨h0, h1, ?_⟩
  intro chunks1 chunks2 header m hread hparse
  simp [ReceiveServerKeyExchange.read_body_sync, ServerKeyExchangeMessage.header_len,
    hread, hparse, h1]

/-- C10 (witness): an all-zero 9-byte header declares a 0-byte body, and
the body read fails with the connection-closed `socket.error`. -/
theorem dataRead_zero_always_errors_witness :
    ReceiveServerKeyExchange.read_body_sync [[0, 0, 0, 0, 0, 0, 0, 0, 0]] []
      = .error (.socketError "Connection closed by peer") :=
  dataRead_zero_always_errors.2.2 [[0, 0, 0, 0, 0, 0, 0, 0, 0]] []
    [0, 0, 0, 0, 0, 0, 0, 0, 0]
    { version := 0
      server_group_id_len := 0
      server_nonce_len := 0
      server_ecdhe_public_key_len := 0
      signature_len := 0
      server_group_id := []
      server_nonce := []
      server_ecdhe_public_key := []
      signature := [] }
    (by decide) (by decide)

theorem splitOnComma_ne_nil (s : List Char) : splitOnComma s ≠ [] := by
  cases s with
  | nil => simp [splitOnComma]
  | cons c rest =>
    simp only [splitOnComma]
    cases hs : splitOnComma rest with
    | nil => simp
    | cons f fs =>
      by_cases hc : c = ',' <;> simp [hc]

theorem splitOnComma_no_comma (a : List Char) (h : ',' ∉ a) : splitOnComma a = [a] := by
  induction a with
  | nil => rfl
  | cons c tl ih =>
    have hc : ¬ c = ',' := fun hc => h (by simp [hc])
    have htl : ',' ∉ tl := fun htl => h (List.mem_cons_of_mem _ htl)
    simp only [splitOnComma, ih htl]
    simp [hc]

theorem splitOnComma_append (a rest : List Char) (h : ',' ∉ a) :
    splitOnComma (a ++ ',' :: rest) = a :: splitOnComma rest := by
  induction a with
  | nil =>
    simp only [List.nil_append, splitOnComma]
    cases hs : splitOnComma rest with
    | nil => exact absurd hs (splitOnComma_ne_nil rest)
    | cons f fs => simp
  | cons c tl ih =>
    have hc : ¬ c = ',' := fun hc => h (by simp [hc])
    have htl : ',' ∉ tl := fun htl => h (List.mem_cons_of_mem _ htl)
    simp only [List.cons_append, splitOnComma, List.append_eq]
    rw [ih htl]
    simp [hc]

theorem ofParts_arity (parts : List (List Char)) (h : parts.length ≠ 3) :
    Keys.ofParts parts = .error .typeError := by
  obtain _ | ⟨a, parts⟩ := parts; · rfl
  obtain _ | ⟨b, parts⟩ := parts; · rfl
  obtain _ | ⟨c, parts⟩ := parts; · rfl
  obtain _ | ⟨d, parts⟩ := parts
  · exact absurd rfl h
  · rfl

/-- C7 (counterexample): `Keys.from_csv` does not split on the first
two commas only — on `"a,b,c,d"` Python's `split(',')` yields four
fields and the `Keys(*parts)` call fails with `TypeError`, instead of
returning the three fields `(b'a', b'b', b'c,d')`. -/
theorem from_csv_extra_comma_counterexample :
    Keys.from_csv "a,b,c,d" = .error .typeError
    ∧ ¬ (Keys.from_csv "a,b,c,d"
          = .ok { group_id := [97], server_public_key := [98],
                  client_private_key := [99, 44, 100] }) :=
  ⟨by decide, by decide⟩

/-- C7 (amended): the parser splits on every comma, not just the first
two: a string with exactly two commas parses into the three
comma-delimited fields, and any string whose comma count is not exactly
two — in particular one with extra commas in the remainder — makes the
three-argument `Keys` constructor fail with `TypeError`. -/
theorem from_csv_splits_on_every_comma :
    (∀ g s c : List Char, ',' ∉ g → ',' ∉ s → ',' ∉ c →
      g.all (fun ch => ch.toNat < 128) = true →
      s.all (fun ch => ch.toNat < 128) = true →
      c.all (fun ch => ch.toNat < 128) = true →
      Keys.from_csv ⟨g ++ ',' :: (s ++ ',' :: c)⟩
        = .ok { group_id := g.map Char.toNat
                server_public_key := s.map Char.toNat
                client_private_key := c.map Char.toNat })
    ∧ (∀ csv : String, (splitOnComma csv.toList).length ≠ 3 →
        Keys.from_csv csv = .error .typeError) := by
  constructor
  · intro g s c hg hs hc hg' hs' hc'
    show Keys.ofParts (splitOnComma (g ++ ',' :: (s ++ ',' :: c))) = _
    rw [splitOnComma_append g _ hg, splitOnComma_append s _ hs,
      splitOnComma_no_comma c hc]
    simp [Keys.ofParts, encodeAscii, hg', hs', hc']
  · intro csv h
    exact ofParts_arity _ h

/-- C7 (witness): `"a,b,c"` parses into the three fields, and a
four-field split is rejected. -/
theorem from_csv_splits_on_every_comma_witness :
    Keys.from_csv ⟨['a'] ++ ',' :: (['b'] ++ ',' :: ['c'])⟩
      = .ok { group_id := ['a'].map Char.toNat
              server_public_key := ['b'].map Char.toNat
              client_private_key := ['c'].map Char.toNat }
    ∧ Keys.from_csv "x,,y,z" = .error .typeError :=
  ⟨from_csv_splits_on_every_comma.1 ['a'] ['b'] ['c']
      (by decide) (by decide) (by decide) (by decide) (by decide) (by decide),
   from_csv_splits_on_every_comma.2 "x,,y,z" (by decide)⟩
